import Mathlib

/-!
Shallow embedding of `src/preload/managers/AudioCaptureManagerPreload.ts`
(HeleleF/ghetto.board).

The manager mixes browser-view tab audio and external device audio into one
Web Audio graph, taps the mix with a PCM worklet and ships frames over a
websocket.  We model the manager instance as an explicit state record.

Modelling choices:
* Web Audio objects (MediaStream, MediaStreamTrack, GainNode) are identified
  by freshly allocated natural-number ids (`nextId` counter in the state).
* `gainValue n` is the current `gain.value` of gain node `n`
  (`createGain()` default is 1).
* `busConnections` is the list of gain-node ids currently connected to
  `_audioOutputNode` (the mix bus); `output.connect(this._audioOutputNode)`
  prepends, and nothing in the source ever disconnects.
* `sourceConnections` records `audioSource.connect(output)` edges
  (stream id, gain id).
* `streamTracks st` lists the track ids of media stream `st`
  (`getUserMedia` with `video: false` yields a single audio track);
  `trackStopped t` records `track.stop()` calls.
* `getUserMedia` is asynchronous and may reject; its outcome is passed in as
  a boolean `gumOk` argument (`true` = resolved with a stream).
* `console.error` diagnostics are appended to `errorLog`.
* a PCM worklet message payload is abstracted as a `Nat`; `wsSent` is the
  ordered list of payloads handed to `this._ws.send`.
-/

/-- Sample rate of the audio context (`SAMPLE_RATE = 48000`). -/
def SAMPLE_RATE : ℕ := 48000

/-- Number of channels for the audio context (`NUM_CHANNELS = 2`). -/
def NUM_CHANNELS : ℕ := 2

/-- 16 bit audio data (`BIT_DEPTH = 16`). -/
def BIT_DEPTH : ℕ := 16

/-- Number of bytes per audio sample (`BYTES_PER_SAMPLE = BIT_DEPTH / 8`). -/
def BYTES_PER_SAMPLE : ℕ := BIT_DEPTH / 8

/-- 20ms Opus frame duration (`FRAME_DURATION = 20`). -/
def FRAME_DURATION : ℚ := 20

/-- Duration of each audio frame in seconds (`FRAME_DURATION / 1000`). -/
def FRAME_DURATION_SECONDS : ℚ := FRAME_DURATION / 1000

/-- Size of each frame of audio:
`SAMPLE_RATE * FRAME_DURATION_SECONDS * NUM_CHANNELS / BYTES_PER_SAMPLE`. -/
def FRAME_SIZE : ℚ :=
  (SAMPLE_RATE * FRAME_DURATION_SECONDS * NUM_CHANNELS) / BYTES_PER_SAMPLE

/-- The streaming mode argument of `start` — exactly the two string literals
`"lowLatency" | "performance"` of the TypeScript union type. -/
inductive StreamingMode where
  | lowLatency : StreamingMode
  | performance : StreamingMode
deriving DecidableEq, Repr

/-- `WebSocket.readyState` values. -/
inductive WsReady where
  | connecting : WsReady
  | opened : WsReady
  | closing : WsReady
  | closed : WsReady
deriving DecidableEq, Repr

/-- The state of an `AudioCaptureManagerPreload` instance together with the
Web Audio graph objects it owns. -/
structure CaptureState where
  /-- fresh id supply for allocated streams, tracks and gain nodes -/
  nextId : ℕ
  /-- track ids of each media stream object -/
  streamTracks : ℕ → List ℕ
  /-- whether `track.stop()` has been called on a track -/
  trackStopped : ℕ → Bool
  /-- `gain.value` of each gain node -/
  gainValue : ℕ → ℚ
  /-- gain node ids connected to `_audioOutputNode` (the mix bus) -/
  busConnections : List ℕ
  /-- `createMediaStreamSource(stream).connect(output)` edges -/
  sourceConnections : List (ℕ × ℕ)
  /-- `_mediaStreams`: browser view id ↦ media stream id -/
  mediaStreams : ℕ → Option ℕ
  /-- `_mediaStreamOutputs`: browser view id ↦ gain node id -/
  mediaStreamOutputs : ℕ → Option ℕ
  /-- `_externalAudioStreams`: device id ↦ media stream id -/
  externalAudioStreams : String → Option ℕ
  /-- `_externalAudioStreamOutputs`: device id ↦ gain node id -/
  externalAudioStreamOutputs : String → Option ℕ
  /-- `_audioOutputElement.muted` -/
  audioElementMuted : Bool
  /-- whether `_setupLoopback` connected `_audioOutputNode` to the
  local-playback `MediaStreamDestination` -/
  loopbackConnected : Bool
  /-- `this._ws` (`none` = not constructed yet) with its `readyState` -/
  ws : Option WsReady
  /-- payloads passed to `this._ws.send`, oldest first -/
  wsSent : List ℕ
  /-- whether `_audioOutputNode.connect(pcmStreamNode)` has run -/
  pcmTapConnected : Bool
  /-- `bufferSize` parameter given to the `AudioWorkletNode` -/
  workletBufferSizeParam : Option ℕ
  /-- arguments of `AUDIO_CAPTURE_STREAM_START` ipc messages sent -/
  streamStartMsgs : List (ℕ × ℚ × ℕ)
  /-- `console.error` diagnostics -/
  errorLog : List String

/-- The state right after the constructor ran: empty registries, a fresh
`AudioContext` with one output gain node and nothing else. -/
def initState : CaptureState where
  nextId := 0
  streamTracks := fun _ => []
  trackStopped := fun _ => false
  gainValue := fun _ => 1
  busConnections := []
  sourceConnections := []
  mediaStreams := fun _ => none
  mediaStreamOutputs := fun _ => none
  externalAudioStreams := fun _ => none
  externalAudioStreamOutputs := fun _ => none
  audioElementMuted := false
  loopbackConnected := false
  ws := none
  wsSent := []
  pcmTapConnected := false
  workletBufferSizeParam := none
  streamStartMsgs := []
  errorLog := []

/-- `setMuted(id, muted)`: if `_mediaStreamOutputs[id]` exists, set its
`gain.value` to `muted ? 0 : 1`; otherwise do nothing. -/
def setMuted (id : ℕ) (muted : Bool) (s : CaptureState) : CaptureState :=
  match s.mediaStreamOutputs id with
  | some g =>
      { s with gainValue := fun n =>
          if n = g then (if muted then 0 else 1) else s.gainValue n }
  | none => s

/-- `setLoopback(loopback)`: `this._audioOutputElement.muted = !loopback`. -/
def setLoopback (loopback : Bool) (s : CaptureState) : CaptureState :=
  { s with audioElementMuted := !loopback }

/-- `_setupLoopback()`: connect the mix bus to a local-playback media
destination and create the audio element (fresh element: not muted). -/
def setupLoopback (s : CaptureState) : CaptureState :=
  { s with loopbackConnected := true, audioElementMuted := false }

/-- `_setupWebsocket()`: construct `this._ws` (a fresh socket is in the
`CONNECTING` ready state). -/
def setupWebsocket (s : CaptureState) : CaptureState :=
  { s with ws := some WsReady.connecting }

/-- The worklet `bufferSize` chosen in `_startBrowserStream`:
`streamingMode === "lowLatency" ? 256 : 64000`. -/
def workletBufferSize (m : StreamingMode) : ℕ :=
  if m = StreamingMode.lowLatency then 256 else 64000

/-- `_startBrowserStream(streamingMode)`: send the
`AUDIO_CAPTURE_STREAM_START` ipc message with
`(NUM_CHANNELS, FRAME_SIZE, SAMPLE_RATE)`, create the `pcm-stream` worklet
node with the mode's `bufferSize` parameter, and connect
`_audioOutputNode` to it. -/
def startBrowserStream (m : StreamingMode) (s : CaptureState) : CaptureState :=
  { s with
      streamStartMsgs :=
        s.streamStartMsgs ++ [(NUM_CHANNELS, FRAME_SIZE, SAMPLE_RATE)]
      workletBufferSizeParam := some (workletBufferSize m)
      pcmTapConnected := true }

/-- `start(streamingMode)`: delegates to `_startBrowserStream`. -/
def start (m : StreamingMode) (s : CaptureState) : CaptureState :=
  startBrowserStream m s

/-- The `pcmStreamNode.port.onmessage` handler installed by
`_startBrowserStream`: if `this._ws` exists and
`this._ws.readyState === WebSocket.OPEN`, call `this._ws.send(event.data)`;
otherwise the handler does nothing at all. -/
def onPcmMessage (data : ℕ) (s : CaptureState) : CaptureState :=
  if s.ws = some WsReady.opened then { s with wsSent := s.wsSent ++ [data] }
  else s

/-- A sequence of worklet messages handled in emission order. -/
def onPcmMessages (frames : List ℕ) (s : CaptureState) : CaptureState :=
  frames.foldl (fun st f => onPcmMessage f st) s

/-- `console.error` text of the browser-view acquisition failure path. -/
def browserViewErr (viewId : ℕ) : String :=
  "Unable to start stream for web view " ++ toString viewId

/-- `console.error` text of the external-device acquisition failure path. -/
def externalErr (deviceId : String) : String :=
  "Unable to start stream for external audio device " ++ deviceId

/-- `startBrowserViewStream(viewId, mediaSourceId)`.
`gumOk` is the outcome of the awaited
`navigator.mediaDevices.getUserMedia(streamConfig)`: on success the stream
(with its one audio track) is stored in `_mediaStreams[viewId]`, a fresh
gain node is stored in `_mediaStreamOutputs[viewId]`, the stream source is
connected to the gain node and the gain node to `_audioOutputNode`; on
rejection the `catch` block only logs. -/
def startBrowserViewStream (viewId : ℕ) (gumOk : Bool) (s : CaptureState) :
    CaptureState :=
  if gumOk then
    { s with
        nextId := s.nextId + 3
        streamTracks := fun n =>
          if n = s.nextId then [s.nextId + 1] else s.streamTracks n
        trackStopped := fun t =>
          if t = s.nextId + 1 then false else s.trackStopped t
        mediaStreams := fun i =>
          if i = viewId then some s.nextId else s.mediaStreams i
        gainValue := fun n =>
          if n = s.nextId + 2 then 1 else s.gainValue n
        mediaStreamOutputs := fun i =>
          if i = viewId then some (s.nextId + 2) else s.mediaStreamOutputs i
        sourceConnections := (s.nextId, s.nextId + 2) :: s.sourceConnections
        busConnections := (s.nextId + 2) :: s.busConnections }
  else
    { s with errorLog := s.errorLog ++ [browserViewErr viewId] }

/-- `stopBrowserViewStream(viewId)`: if `_mediaStreams[viewId]` exists, stop
every one of its tracks and delete the `_mediaStreams` entry.  (The
`_mediaStreamOutputs` entry is not touched and the gain node is not
disconnected.) -/
def stopBrowserViewStream (viewId : ℕ) (s : CaptureState) : CaptureState :=
  match s.mediaStreams viewId with
  | some st =>
      { s with
          trackStopped := fun t =>
            if t ∈ s.streamTracks st then true else s.trackStopped t
          mediaStreams := fun i =>
            if i = viewId then none else s.mediaStreams i }
  | none => s

/-- `startExternalAudioCapture(deviceId)`.  Same shape as
`startBrowserViewStream` but keyed by device id string in the
`_externalAudioStreams` / `_externalAudioStreamOutputs` registries. -/
def startExternalAudioCapture (deviceId : String) (gumOk : Bool)
    (s : CaptureState) : CaptureState :=
  if gumOk then
    { s with
        nextId := s.nextId + 3
        streamTracks := fun n =>
          if n = s.nextId then [s.nextId + 1] else s.streamTracks n
        trackStopped := fun t =>
          if t = s.nextId + 1 then false else s.trackStopped t
        externalAudioStreams := fun d =>
          if d = deviceId then some s.nextId else s.externalAudioStreams d
        gainValue := fun n =>
          if n = s.nextId + 2 then 1 else s.gainValue n
        externalAudioStreamOutputs := fun d =>
          if d = deviceId then some (s.nextId + 2)
          else s.externalAudioStreamOutputs d
        sourceConnections := (s.nextId, s.nextId + 2) :: s.sourceConnections
        busConnections := (s.nextId + 2) :: s.busConnections }
  else
    { s with errorLog := s.errorLog ++ [externalErr deviceId] }

/-- `stopExternalAudioCapture(deviceId)`: if `_externalAudioStreams[deviceId]`
exists, stop every one of its tracks and delete both the
`_externalAudioStreams` and the `_externalAudioStreamOutputs` entries.  (The
gain node is not disconnected from the mix bus.) -/
def stopExternalAudioCapture (deviceId : String) (s : CaptureState) :
    CaptureState :=
  match s.externalAudioStreams deviceId with
  | some st =>
      { s with
          trackStopped := fun t =>
            if t ∈ s.streamTracks st then true else s.trackStopped t
          externalAudioStreams := fun d =>
            if d = deviceId then none else s.externalAudioStreams d
          externalAudioStreamOutputs := fun d =>
            if d = deviceId then none else s.externalAudioStreamOutputs d }
  | none => s

/-! ### Characterization lemmas for the registry operations -/

theorem setMuted_some (id : ℕ) (m : Bool) (s : CaptureState) (g : ℕ)
    (h : s.mediaStreamOutputs id = some g) :
    setMuted id m s =
      { s with gainValue := fun n =>
          if n = g then (if m then 0 else 1) else s.gainValue n } := by
  unfold setMuted
  rw [h]

theorem setMuted_none (id : ℕ) (m : Bool) (s : CaptureState)
    (h : s.mediaStreamOutputs id = none) : setMuted id m s = s := by
  unfold setMuted
  rw [h]

theorem stopBrowserViewStream_some (v : ℕ) (s : CaptureState) (st : ℕ)
    (h : s.mediaStreams v = some st) :
    stopBrowserViewStream v s =
      { s with
          trackStopped := fun t =>
            if t ∈ s.streamTracks st then true else s.trackStopped t
          mediaStreams := fun i =>
            if i = v then none else s.mediaStreams i } := by
  unfold stopBrowserViewStream
  rw [h]

theorem stopBrowserViewStream_none (v : ℕ) (s : CaptureState)
    (h : s.mediaStreams v = none) : stopBrowserViewStream v s = s := by
  unfold stopBrowserViewStream
  rw [h]

theorem stopExternalAudioCapture_some (d : String) (s : CaptureState) (st : ℕ)
    (h : s.externalAudioStreams d = some st) :
    stopExternalAudioCapture d s =
      { s with
          trackStopped := fun t =>
            if t ∈ s.streamTracks st then true else s.trackStopped t
          externalAudioStreams := fun x =>
            if x = d then none else s.externalAudioStreams x
          externalAudioStreamOutputs := fun x =>
            if x = d then none else s.externalAudioStreamOutputs x } := by
  unfold stopExternalAudioCapture
  rw [h]

theorem stopExternalAudioCapture_none (d : String) (s : CaptureState)
    (h : s.externalAudioStreams d = none) : stopExternalAudioCapture d s = s := by
  unfold stopExternalAudioCapture
  rw [h]

/-! ### C4 -/

/-- C4: `start` accepts exactly the two modes `lowLatency` and `performance`
and the worklet `bufferSize` is selected from exactly the two hard-coded
literals `256` (lowLatency) and `64000` (performance); no other `bufferSize`
value is reachable through the public interface. -/
theorem start_bufferSize_two_value_policy :
    workletBufferSize StreamingMode.lowLatency = 256 ∧
    workletBufferSize StreamingMode.performance = 64000 ∧
    (∀ m : StreamingMode,
      m = StreamingMode.lowLatency ∨ m = StreamingMode.performance) ∧
    (∀ (m : StreamingMode) (s : CaptureState),
      (start m s).workletBufferSizeParam = some (workletBufferSize m)) ∧
    (∀ (m : StreamingMode) (s : CaptureState),
      (start m s).workletBufferSizeParam = some 256 ∨
      (start m s).workletBufferSizeParam = some 64000) := by
  refine ⟨rfl, rfl, ?_, ?_, ?_⟩
  · intro m
    cases m
    · exact Or.inl rfl
    · exact Or.inr rfl
  · intro m s
    rfl
  · intro m s
    cases m
    · exact Or.inl rfl
    · exact Or.inr rfl

/-! ### C7 -/

/-- C7: the derived framing constant
`FRAME_SIZE = SAMPLE_RATE * FRAME_DURATION_SECONDS * NUM_CHANNELS / BYTES_PER_SAMPLE`
equals exactly 960; it is sent only as the stream-setup metadata of the
`AUDIO_CAPTURE_STREAM_START` message — the same triple for both modes,
independent of the worklet `bufferSize`, which differs between the modes. -/
theorem frame_size_960_metadata_only :
    FRAME_SIZE = 960 ∧
    (∀ (m : StreamingMode) (s : CaptureState),
      (start m s).streamStartMsgs =
        s.streamStartMsgs ++ [(NUM_CHANNELS, FRAME_SIZE, SAMPLE_RATE)]) ∧
    (∀ s : CaptureState,
      (start StreamingMode.lowLatency s).streamStartMsgs =
        (start StreamingMode.performance s).streamStartMsgs) ∧
    workletBufferSize StreamingMode.lowLatency ≠
      workletBufferSize StreamingMode.performance := by
  refine ⟨?_, fun m s => rfl, fun s => rfl, by decide⟩
  norm_num [FRAME_SIZE, FRAME_DURATION_SECONDS, FRAME_DURATION, SAMPLE_RATE,
    NUM_CHANNELS, BYTES_PER_SAMPLE, BIT_DEPTH]

/-! ### C9 -/

/-- C9: `setLoopback` only assigns the `muted` flag of the local-playback
audio element (`muted = !loopback`); every other part of the state — in
particular the Frame Streamer tap (`pcmTapConnected`) and the audio graph —
is untouched, so local monitoring has no effect on the streamed output. -/
theorem setLoopback_only_mutes_element :
    ∀ (b : Bool) (s : CaptureState),
      (setLoopback b s).audioElementMuted = !b ∧
      setLoopback b s = { s with audioElementMuted := !b } ∧
      (setLoopback b s).pcmTapConnected = s.pcmTapConnected ∧
      (setLoopback b s).busConnections = s.busConnections ∧
      (setLoopback b s).loopbackConnected = s.loopbackConnected ∧
      (setLoopback b s).wsSent = s.wsSent := by
  intro b s
  exact ⟨rfl, rfl, rfl, rfl, rfl, rfl⟩

/-! ### C6 -/

/-- C6: if `getUserMedia` rejects (`gumOk = false`), both start functions
only log a diagnostic: no stream record, no gain record, no graph connection
and no allocation happens — registration is all-or-nothing. -/
theorem acquisition_failure_no_partial_state :
    ∀ (viewId : ℕ) (dev : String) (s : CaptureState),
      (startBrowserViewStream viewId false s).mediaStreams = s.mediaStreams ∧
      (startBrowserViewStream viewId false s).mediaStreamOutputs =
        s.mediaStreamOutputs ∧
      (startBrowserViewStream viewId false s).busConnections =
        s.busConnections ∧
      (startBrowserViewStream viewId false s).sourceConnections =
        s.sourceConnections ∧
      (startBrowserViewStream viewId false s).nextId = s.nextId ∧
      (startBrowserViewStream viewId false s).gainValue = s.gainValue ∧
      (startBrowserViewStream viewId false s).errorLog =
        s.errorLog ++ [browserViewErr viewId] ∧
      (startExternalAudioCapture dev false s).externalAudioStreams =
        s.externalAudioStreams ∧
      (startExternalAudioCapture dev false s).externalAudioStreamOutputs =
        s.externalAudioStreamOutputs ∧
      (startExternalAudioCapture dev false s).busConnections =
        s.busConnections ∧
      (startExternalAudioCapture dev false s).sourceConnections =
        s.sourceConnections ∧
      (startExternalAudioCapture dev false s).nextId = s.nextId ∧
      (startExternalAudioCapture dev false s).gainValue = s.gainValue ∧
      (startExternalAudioCapture dev false s).errorLog =
        s.errorLog ++ [externalErr dev] := by
  intro viewId dev s
  exact ⟨rfl, rfl, rfl, rfl, rfl, rfl, rfl, rfl, rfl, rfl, rfl, rfl, rfl, rfl⟩

/-! ### C8 -/

/-- C8: for every id with a registered Gain Stage, `setMuted(id, true)` is
idempotent — calling it twice yields the same state as calling it once, and
the Gain Stage value is 0 in both cases. -/
theorem setMuted_true_idempotent (id : ℕ) (s : CaptureState) (g : ℕ)
    (h : s.mediaStreamOutputs id = some g) :
    setMuted id true (setMuted id true s) = setMuted id true s ∧
    (setMuted id true s).gainValue g = 0 ∧
    (setMuted id true (setMuted id true s)).gainValue g = 0 := by
  have e1 := setMuted_some id true s g h
  have hp : (setMuted id true s).mediaStreamOutputs id = some g := by
    rw [e1]; exact h
  have e2 := setMuted_some id true (setMuted id true s) g hp
  refine ⟨?_, ?_, ?_⟩
  · rw [e2, e1]
    congr 1
    funext n
    by_cases hn : n = g
    · simp [hn]
    · simp [hn]
  · rw [e1]
    simp
  · rw [e2]
    simp

/-- Witness for C8 at a concrete reachable state: after a successful
`startBrowserViewStream(5, ...)` the gain node of view 5 is node 2, and
muting twice equals muting once with gain 0. -/
theorem setMuted_true_idempotent_witness :
    (startBrowserViewStream 5 true initState).mediaStreamOutputs 5 = some 2 ∧
    (setMuted 5 true (setMuted 5 true (startBrowserViewStream 5 true initState)) =
        setMuted 5 true (startBrowserViewStream 5 true initState) ∧
      (setMuted 5 true (startBrowserViewStream 5 true initState)).gainValue 2 = 0 ∧
      (setMuted 5 true (setMuted 5 true
        (startBrowserViewStream 5 true initState))).gainValue 2 = 0) :=
  ⟨rfl, setMuted_true_idempotent 5 (startBrowserViewStream 5 true initState) 2 rfl⟩

/-! ### C10 -/

/-- C10: for a browser-view id with an active capture,
`stopBrowserViewStream` removes only the `_mediaStreams` record and leaves
the `_mediaStreamOutputs` record in place, so a subsequent `setMuted` on the
stopped id still finds the retained gain node and sets its gain value. -/
theorem stopBrowserView_retains_gain_for_setMuted (v : ℕ) (s : CaptureState)
    (st g : ℕ) (h1 : s.mediaStreams v = some st)
    (h2 : s.mediaStreamOutputs v = some g) :
    (stopBrowserViewStream v s).mediaStreams v = none ∧
    (stopBrowserViewStream v s).mediaStreamOutputs = s.mediaStreamOutputs ∧
    (stopBrowserViewStream v s).mediaStreamOutputs v = some g ∧
    ∀ m : Bool,
      (setMuted v m (stopBrowserViewStream v s)).gainValue g =
        if m then 0 else 1 := by
  have e := stopBrowserViewStream_some v s st h1
  have hp : (stopBrowserViewStream v s).mediaStreamOutputs v = some g := by
    rw [e]; exact h2
  refine ⟨?_, ?_, hp, ?_⟩
  · rw [e]; simp
  · rw [e]
  · intro m
    rw [setMuted_some v m _ g hp]
    simp

/-- Witness for C10 at a concrete reachable state: start view 5
(stream 0, gain node 2), stop it, then mute it — the retained gain node 2
goes to 0. -/
theorem stopBrowserView_retains_gain_witness :
    (startBrowserViewStream 5 true initState).mediaStreams 5 = some 0 ∧
    (startBrowserViewStream 5 true initState).mediaStreamOutputs 5 = some 2 ∧
    (stopBrowserViewStream 5
      (startBrowserViewStream 5 true initState)).mediaStreams 5 = none ∧
    (stopBrowserViewStream 5
      (startBrowserViewStream 5 true initState)).mediaStreamOutputs 5 = some 2 ∧
    (setMuted 5 true (stopBrowserViewStream 5
      (startBrowserViewStream 5 true initState))).gainValue 2 =
      if true then 0 else 1 :=
  ⟨rfl, rfl,
    (stopBrowserView_retains_gain_for_setMuted 5
      (startBrowserViewStream 5 true initState) 0 2 rfl rfl).1,
    (stopBrowserView_retains_gain_for_setMuted 5
      (startBrowserViewStream 5 true initState) 0 2 rfl rfl).2.2.1,
    (stopBrowserView_retains_gain_for_setMuted 5
      (startBrowserViewStream 5 true initState) 0 2 rfl rfl).2.2.2 true⟩

/-! ### C5 -/

/-- The property claimed of `setMuted` for the ExternalDevice kind: some
`setMuted` invocation drives a registered external-device Gain Stage to 0
when muting.  (In the source, `setMuted` takes a numeric browser-view id and
consults only `_mediaStreamOutputs`.) -/
def externalMutableBySetMuted : Prop :=
  ∃ (id : ℕ) (m : Bool), ∀ (s : CaptureState) (dev : String) (g : ℕ),
    s.externalAudioStreamOutputs dev = some g →
    (setMuted id m s).gainValue g = 0

/-- C5 counterexample: no `setMuted` invocation can mute an external-device
source.  Concretely, after `startExternalAudioCapture("mic-1")` (gain node 2
with gain 1), every `setMuted id m` call leaves that gain at 1, because
`setMuted` consults only the browser-view registry `_mediaStreamOutputs`. -/
theorem setMuted_cannot_mute_external : ¬ externalMutableBySetMuted := by
  rintro ⟨id, m, h⟩
  have hg : (startExternalAudioCapture "mic-1" true
      initState).externalAudioStreamOutputs "mic-1" = some 2 := rfl
  have h0 := h (startExternalAudioCapture "mic-1" true initState) "mic-1" 2 hg
  have hnone : (startExternalAudioCapture "mic-1" true
      initState).mediaStreamOutputs id = none := rfl
  rw [setMuted_none id m _ hnone] at h0
  have h1 : (startExternalAudioCapture "mic-1" true
      initState).gainValue 2 = 1 := rfl
  rw [h1] at h0
  exact absurd h0 (by norm_num)

/-- C5 amended: `setMuted(id, muted)` addresses only browser-view sources:
when `_mediaStreamOutputs[id]` is registered it sets that Gain Stage to 0
(muted) or 1 (unmuted) and touches no other gain node, and it is a silent
no-op when `id` is not registered; external-device registries, the graph and
the logs are never modified by it. -/
theorem setMuted_browser_only (id : ℕ) (m : Bool) (s : CaptureState) :
    (∀ g, s.mediaStreamOutputs id = some g →
      (setMuted id m s).gainValue g = (if m then 0 else 1) ∧
      ∀ n, n ≠ g → (setMuted id m s).gainValue n = s.gainValue n) ∧
    (s.mediaStreamOutputs id = none → setMuted id m s = s) ∧
    (setMuted id m s).externalAudioStreamOutputs =
      s.externalAudioStreamOutputs ∧
    (setMuted id m s).externalAudioStreams = s.externalAudioStreams ∧
    (setMuted id m s).mediaStreamOutputs = s.mediaStreamOutputs ∧
    (setMuted id m s).busConnections = s.busConnections ∧
    (setMuted id m s).errorLog = s.errorLog := by
  have preserved :
      (setMuted id m s).externalAudioStreamOutputs =
        s.externalAudioStreamOutputs ∧
      (setMuted id m s).externalAudioStreams = s.externalAudioStreams ∧
      (setMuted id m s).mediaStreamOutputs = s.mediaStreamOutputs ∧
      (setMuted id m s).busConnections = s.busConnections ∧
      (setMuted id m s).errorLog = s.errorLog := by
    rcases hh : s.mediaStreamOutputs id with _ | g
    · rw [setMuted_none id m s hh]
      exact ⟨rfl, rfl, rfl, rfl, rfl⟩
    · rw [setMuted_some id m s g hh]
      exact ⟨rfl, rfl, rfl, rfl, rfl⟩
  refine ⟨?_, setMuted_none id m s, preserved⟩
  intro g hg
  rw [setMuted_some id m s g hg]
  refine ⟨by simp, ?_⟩
  intro n hn
  simp [hn]

/-- Witness for C5 (amended) at concrete inputs: view 5 is registered with
gain node 2, so muting it yields gain 0; view 7 is not registered, so muting
it is the identity. -/
theorem setMuted_browser_only_witness :
    (startBrowserViewStream 5 true initState).mediaStreamOutputs 5 = some 2 ∧
    (setMuted 5 true (startBrowserViewStream 5 true initState)).gainValue 2 =
      (if true then 0 else 1) ∧
    (startBrowserViewStream 5 true initState).mediaStreamOutputs 7 = none ∧
    setMuted 7 true (startBrowserViewStream 5 true initState) =
      startBrowserViewStream 5 true initState :=
  ⟨rfl,
   ((setMuted_browser_only 5 true (startBrowserViewStream 5 true initState)).1
      2 rfl).1,
   rfl,
   (setMuted_browser_only 7 true
      (startBrowserViewStream 5 true initState)).2.1 rfl⟩

/-! ### C1 -/

/-- C1 counterexample: calling `startBrowserViewStream(5, ...)` twice with no
intervening stop logs no error (and the function has no error return at
all), silently replaces the registry entries of id 5 (stream 0 / gain 2
become stream 3 / gain 5), leaves the first stream's track 1 running, and
leaves BOTH gain nodes 2 and 5 connected to the mix bus — two active
sources for id 5, not one, and no `DuplicateSource`. -/
theorem double_start_silently_duplicates :
    (startBrowserViewStream 5 true
      (startBrowserViewStream 5 true initState)).errorLog = [] ∧
    (startBrowserViewStream 5 true
      (startBrowserViewStream 5 true initState)).mediaStreams 5 = some 3 ∧
    (startBrowserViewStream 5 true
      (startBrowserViewStream 5 true initState)).mediaStreamOutputs 5 =
      some 5 ∧
    (startBrowserViewStream 5 true
      (startBrowserViewStream 5 true initState)).busConnections = [5, 2] ∧
    (startBrowserViewStream 5 true
      (startBrowserViewStream 5 true initState)).trackStopped 1 = false ∧
    (startBrowserViewStream 5 true initState).mediaStreams 5 = some 0 ∧
    (startBrowserViewStream 5 true initState).busConnections = [2] := by
  refine ⟨rfl, by decide, by decide, by decide, by decide, by decide,
    by decide⟩

/-- C1 amended: there is no duplicate-source check and no error result:
starting a capture for an id that already has an active source silently
overwrites that id's registry entries with the freshly allocated stream and
gain node, logs nothing, does not stop the previous stream's tracks, and
prepends the new gain node to the mix-bus connections while the previous
gain node stays connected. -/
theorem start_overwrites_active_source (v : ℕ) (d : String) (s : CaptureState)
    (st ste : ℕ) :
    (s.mediaStreams v = some st →
      (startBrowserViewStream v true s).errorLog = s.errorLog ∧
      (startBrowserViewStream v true s).mediaStreams v = some s.nextId ∧
      (startBrowserViewStream v true s).mediaStreamOutputs v =
        some (s.nextId + 2) ∧
      (startBrowserViewStream v true s).busConnections =
        (s.nextId + 2) :: s.busConnections ∧
      ∀ t, t ≠ s.nextId + 1 →
        (startBrowserViewStream v true s).trackStopped t = s.trackStopped t) ∧
    (s.externalAudioStreams d = some ste →
      (startExternalAudioCapture d true s).errorLog = s.errorLog ∧
      (startExternalAudioCapture d true s).externalAudioStreams d =
        some s.nextId ∧
      (startExternalAudioCapture d true s).externalAudioStreamOutputs d =
        some (s.nextId + 2) ∧
      (startExternalAudioCapture d true s).busConnections =
        (s.nextId + 2) :: s.busConnections ∧
      ∀ t, t ≠ s.nextId + 1 →
        (startExternalAudioCapture d true s).trackStopped t =
          s.trackStopped t) := by
  constructor
  · intro _
    refine ⟨rfl, by simp [startBrowserViewStream], by
      simp [startBrowserViewStream], rfl, ?_⟩
    intro t ht
    simp [startBrowserViewStream, ht]
  · intro _
    refine ⟨rfl, by simp [startExternalAudioCapture], by
      simp [startExternalAudioCapture], rfl, ?_⟩
    intro t ht
    simp [startExternalAudioCapture, ht]

/-- Witness for C1 (amended) at a concrete state holding an active browser
view 5 (stream 0) and an active external device "mic-1" (stream 3,
`nextId = 6`): restarting either replaces its registry entry with the new
allocations. -/
theorem start_overwrites_active_source_witness :
    (startExternalAudioCapture "mic-1" true
      (startBrowserViewStream 5 true initState)).mediaStreams 5 = some 0 ∧
    (startExternalAudioCapture "mic-1" true
      (startBrowserViewStream 5 true initState)).externalAudioStreams
        "mic-1" = some 3 ∧
    (startBrowserViewStream 5 true (startExternalAudioCapture "mic-1" true
      (startBrowserViewStream 5 true initState))).mediaStreamOutputs 5 =
        some 8 ∧
    (startExternalAudioCapture "mic-1" true (startExternalAudioCapture
      "mic-1" true (startBrowserViewStream 5 true
        initState))).externalAudioStreamOutputs "mic-1" = some 8 :=
  ⟨rfl, rfl,
   ((start_overwrites_active_source 5 "mic-1"
      (startExternalAudioCapture "mic-1" true
        (startBrowserViewStream 5 true initState)) 0 3).1 rfl).2.2.1,
   ((start_overwrites_active_source 5 "mic-1"
      (startExternalAudioCapture "mic-1" true
        (startBrowserViewStream 5 true initState)) 0 3).2 rfl).2.2.1⟩

/-! ### C2 -/

/-- C2 counterexample: after `startExternalAudioCapture("mic-1")` (gain node
2 connected to the bus), `stopExternalAudioCapture("mic-1")` removes both
registry entries but gain node 2 remains connected to the mix bus; after
`startBrowserViewStream(5, ...)`, `stopBrowserViewStream(5)` removes the
stream record but keeps the gain record `_mediaStreamOutputs[5]` and keeps
gain node 2 connected to the bus — so stop neither disconnects the Gain
Stage nor (for browser views) removes the gain record. -/
theorem stop_leaves_bus_connected :
    (stopExternalAudioCapture "mic-1"
      (startExternalAudioCapture "mic-1" true initState)).busConnections =
      [2] ∧
    (stopExternalAudioCapture "mic-1" (startExternalAudioCapture "mic-1" true
      initState)).externalAudioStreams "mic-1" = none ∧
    (stopExternalAudioCapture "mic-1" (startExternalAudioCapture "mic-1" true
      initState)).externalAudioStreamOutputs "mic-1" = none ∧
    (stopBrowserViewStream 5
      (startBrowserViewStream 5 true initState)).mediaStreams 5 = none ∧
    (stopBrowserViewStream 5
      (startBrowserViewStream 5 true initState)).mediaStreamOutputs 5 =
      some 2 ∧
    (stopBrowserViewStream 5
      (startBrowserViewStream 5 true initState)).busConnections = [2] := by
  decide

/-- C2 amended: both stop functions are idempotent and no-ops when no source
is active for the id; when a source is active they stop every one of its
media tracks and delete the stream record; `stopExternalAudioCapture` also
deletes the gain record while `stopBrowserViewStream` retains it; neither
function disconnects the source's gain node from the mix bus. -/
theorem stop_idempotent_no_disconnect (v : ℕ) (d : String) (s : CaptureState) :
    stopBrowserViewStream v (stopBrowserViewStream v s) =
      stopBrowserViewStream v s ∧
    (s.mediaStreams v = none → stopBrowserViewStream v s = s) ∧
    (∀ st, s.mediaStreams v = some st →
      (stopBrowserViewStream v s).mediaStreams v = none ∧
      (∀ t, t ∈ s.streamTracks st →
        (stopBrowserViewStream v s).trackStopped t = true) ∧
      (stopBrowserViewStream v s).mediaStreamOutputs =
        s.mediaStreamOutputs ∧
      (stopBrowserViewStream v s).busConnections = s.busConnections) ∧
    stopExternalAudioCapture d (stopExternalAudioCapture d s) =
      stopExternalAudioCapture d s ∧
    (s.externalAudioStreams d = none → stopExternalAudioCapture d s = s) ∧
    (∀ st, s.externalAudioStreams d = some st →
      (stopExternalAudioCapture d s).externalAudioStreams d = none ∧
      (stopExternalAudioCapture d s).externalAudioStreamOutputs d = none ∧
      (∀ t, t ∈ s.streamTracks st →
        (stopExternalAudioCapture d s).trackStopped t = true) ∧
      (stopExternalAudioCapture d s).busConnections = s.busConnections) := by
  refine ⟨?_, stopBrowserViewStream_none v s, ?_, ?_,
    stopExternalAudioCapture_none d s, ?_⟩
  · rcases hh : s.mediaStreams v with _ | st
    · rw [stopBrowserViewStream_none v s hh]
      exact stopBrowserViewStream_none v s hh
    · have e := stopBrowserViewStream_some v s st hh
      have h2 : (stopBrowserViewStream v s).mediaStreams v = none := by
        rw [e]; simp
      exact stopBrowserViewStream_none v _ h2
  · intro st hst
    have e := stopBrowserViewStream_some v s st hst
    refine ⟨by rw [e]; simp, ?_, by rw [e], by rw [e]⟩
    intro t ht
    rw [e]
    simp [ht]
  · rcases hh : s.externalAudioStreams d with _ | st
    · rw [stopExternalAudioCapture_none d s hh]
      exact stopExternalAudioCapture_none d s hh
    · have e := stopExternalAudioCapture_some d s st hh
      have h2 : (stopExternalAudioCapture d s).externalAudioStreams d =
          none := by rw [e]; simp
      exact stopExternalAudioCapture_none d _ h2
  · intro st hst
    have e := stopExternalAudioCapture_some d s st hst
    refine ⟨by rw [e]; simp, by rw [e]; simp, ?_, by rw [e]⟩
    intro t ht
    rw [e]
    simp [ht]

/-- Witness for C2 (amended) at concrete states: stopping active view 5
(stream 0, track 1) clears its stream record and stops track 1; stopping
active device "mic-1" clears both of its records. -/
theorem stop_idempotent_no_disconnect_witness :
    (startBrowserViewStream 5 true initState).mediaStreams 5 = some 0 ∧
    (stopBrowserViewStream 5
      (startBrowserViewStream 5 true initState)).mediaStreams 5 = none ∧
    (stopBrowserViewStream 5
      (startBrowserViewStream 5 true initState)).trackStopped 1 = true ∧
    (startExternalAudioCapture "mic-1" true
      initState).externalAudioStreams "mic-1" = some 0 ∧
    (stopExternalAudioCapture "mic-1" (startExternalAudioCapture "mic-1" true
      initState)).externalAudioStreamOutputs "mic-1" = none :=
  ⟨rfl,
   ((stop_idempotent_no_disconnect 5 "mic-1"
      (startBrowserViewStream 5 true initState)).2.2.1 0 rfl).1,
   (((stop_idempotent_no_disconnect 5 "mic-1"
      (startBrowserViewStream 5 true initState)).2.2.1 0 rfl).2.1 1
        (by decide)),
   rfl,
   ((stop_idempotent_no_disconnect 5 "mic-1"
      (startExternalAudioCapture "mic-1" true
        initState)).2.2.2.2.2 0 rfl).2.1⟩

/-! ### C3 -/

theorem onPcmMessage_open (f : ℕ) (s : CaptureState)
    (h : s.ws = some WsReady.opened) :
    onPcmMessage f s = { s with wsSent := s.wsSent ++ [f] } := by
  simp [onPcmMessage, h]

theorem onPcmMessage_notOpen (f : ℕ) (s : CaptureState)
    (h : ¬ s.ws = some WsReady.opened) : onPcmMessage f s = s := by
  simp [onPcmMessage, h]

theorem onPcmMessages_open (frames : List ℕ) :
    ∀ s : CaptureState, s.ws = some WsReady.opened →
      onPcmMessages frames s = { s with wsSent := s.wsSent ++ frames } := by
  induction frames with
  | nil =>
      intro s _
      simp [onPcmMessages]
  | cons f fs ih =>
      intro s h
      have e := onPcmMessage_open f s h
      have h2 : (onPcmMessage f s).ws = some WsReady.opened := by
        rw [e]; exact h
      calc onPcmMessages (f :: fs) s
          = onPcmMessages fs (onPcmMessage f s) := rfl
        _ = { onPcmMessage f s with
              wsSent := (onPcmMessage f s).wsSent ++ fs } := ih _ h2
        _ = { s with wsSent := s.wsSent ++ (f :: fs) } := by
              rw [e]; simp

theorem onPcmMessages_notOpen (frames : List ℕ) :
    ∀ s : CaptureState, ¬ s.ws = some WsReady.opened →
      onPcmMessages frames s = s := by
  induction frames with
  | nil =>
      intro s _
      rfl
  | cons f fs ih =>
      intro s h
      have e := onPcmMessage_notOpen f s h
      calc onPcmMessages (f :: fs) s
          = onPcmMessages fs (onPcmMessage f s) := rfl
        _ = onPcmMessages fs s := by rw [e]
        _ = s := ih s h

/-- C3 counterexample: with the websocket in the CLOSED ready state, the
worklet `onmessage` handler is a complete no-op — the resulting state is
identical to the input state, so in particular nothing resembling a drop
counter is incremented (no such counter exists in the code); with the socket
OPEN the same frame is transmitted. -/
theorem drop_has_no_counter :
    onPcmMessage 7 { initState with ws := some WsReady.closed } =
      { initState with ws := some WsReady.closed } ∧
    (onPcmMessage 7 { initState with ws := some WsReady.closed }).wsSent =
      [] ∧
    (onPcmMessage 7 { initState with ws := some WsReady.opened }).wsSent =
      [7] :=
  ⟨rfl, rfl, rfl⟩

/-- C3 amended: a worklet frame is transmitted over the websocket if and
only if the socket exists and its ready state is OPEN, and a sequence of
frames handled while OPEN is appended to the sent list in emission order;
when the socket is not OPEN the frame is silently dropped with no state
change at all — the code keeps no drop counter. -/
theorem frames_sent_iff_open (f : ℕ) (frames : List ℕ) (s : CaptureState) :
    (s.ws = some WsReady.opened →
      onPcmMessage f s = { s with wsSent := s.wsSent ++ [f] } ∧
      (onPcmMessages frames s).wsSent = s.wsSent ++ frames) ∧
    (¬ s.ws = some WsReady.opened →
      onPcmMessage f s = s ∧ onPcmMessages frames s = s) := by
  constructor
  · intro h
    refine ⟨onPcmMessage_open f s h, ?_⟩
    rw [onPcmMessages_open frames s h]
  · intro h
    exact ⟨onPcmMessage_notOpen f s h, onPcmMessages_notOpen frames s h⟩

/-- Witness for C3 (amended): with an OPEN socket the frames [1, 2, 3] are
all sent in order; with a CLOSED socket a frame leaves the state untouched. -/
theorem frames_sent_iff_open_witness :
    ({ initState with ws := some WsReady.opened } : CaptureState).ws =
      some WsReady.opened ∧
    (onPcmMessages [1, 2, 3]
      { initState with ws := some WsReady.opened }).wsSent =
      [] ++ [1, 2, 3] ∧
    ¬ ({ initState with ws := some WsReady.closed } : CaptureState).ws =
      some WsReady.opened ∧
    onPcmMessage 9 { initState with ws := some WsReady.closed } =
      { initState with ws := some WsReady.closed } :=
  ⟨rfl,
   ((frames_sent_iff_open 9 [1, 2, 3]
      { initState with ws := some WsReady.opened }).1 rfl).2,
   by decide,
   ((frames_sent_iff_open 9 [1, 2, 3]
      { initState with ws := some WsReady.closed }).2 (by decide)).1⟩
